import Mathlib

/-!
Verification of the browser-passworder vault codec (src/dist/index.js).

The library composes platform primitives (WebCrypto PBKDF2 / AES-GCM,
Node Buffer base64 and utf-8 codecs, JSON.stringify / JSON.parse) into a
password-based vault format.  The platform primitives are external
collaborators; we model them as an explicit `CryptoProvider` record of
functions and state each theorem with pointwise correctness hypotheses
about the provider at the values actually used, mirroring the library's
assumption that the platform primitives are correct.  Byte sequences are
`List Nat` with values below 256.
-/

/-- JSON values: the dynamic data `JSON.parse` can return and
`JSON.stringify` can consume.  Numbers are modelled as integers (no
claim depends on float semantics). -/
inductive Json where
  | null : Json
  | bool (b : Bool) : Json
  | num (n : Int) : Json
  | str (s : String) : Json
  | arr (elems : List Json) : Json
  | obj (fields : List (String × Json)) : Json

/-- Property lookup on a parsed JSON value, as JS property access does on
the object returned by `JSON.parse` (keys of such an object are unique).
Access on a non-object yields `undefined`, i.e. `none`. -/
def findField : List (String × Json) → String → Option Json
  | [], _ => none
  | (k, v) :: rest, name => if k = name then some v else findField rest name

def Json.getField : Json → String → Option Json
  | .obj fields, name => findField fields name
  | _, _ => none

/-- The JS errors the code under verification can raise.  Constructors
record which platform throw site produced the error:
* `syntaxError` — `JSON.parse` threw a SyntaxError;
* `typeError` — a TypeError: either `Buffer.from(undefined, ...)` when a
  required vault field is absent, or destructuring `null`;
* `incorrectPassword` — the library's own `new Error('Incorrect password')`;
* `invalidAccessError` — `subtle.exportKey` on a non-extractable key;
* `dataError` — `subtle.importKey` rejected the JWK data;
* `unmodelledDynamic` — a JS dynamic-coercion corner (e.g. a non-string
  value in a vault field, which `Buffer.from` would coerce) that the
  model does not resolve; no theorem depends on this constructor. -/
inductive JsErr where
  | syntaxError : JsErr
  | typeError : JsErr
  | incorrectPassword : JsErr
  | invalidAccessError : JsErr
  | dataError : JsErr
  | unmodelledDynamic : JsErr
deriving DecidableEq

/-- A WebCrypto `CryptoKey`: the derived key material together with the
`extractable` flag.  All keys in this library are AES-GCM keys with
encrypt and decrypt usages, so algorithm and usages are left implicit. -/
structure CryptoKey where
  material : List Nat
  extractable : Bool
deriving DecidableEq

/-- The platform primitives the library calls, passed explicitly.
`pbkdf2sha256` is `subtle.deriveKey` with PBKDF2/SHA-256 producing
256-bit AES-GCM key material; `aesGcmEncrypt`/`aesGcmDecrypt` are
`subtle.encrypt`/`subtle.decrypt` (decryption may fail: GCM tag check);
`exportJwk`/`importJwk` are the JWK conversion steps of
`subtle.exportKey`/`subtle.importKey`; `b64encode`/`b64decode` are
`Buffer.toString('base64')`/`Buffer.from(_, 'base64')`;
`utf8encode`/`utf8decode` are `Buffer.from(_, 'utf-8')`/
`Buffer.toString('utf-8')`; `btoa` is the global `btoa` on a binary
string; `jsonStringify`/`jsonParse` are `JSON.stringify`/`JSON.parse`
(parse may throw: `none`). -/
structure CryptoProvider where
  pbkdf2sha256 : List Nat → List Nat → Nat → List Nat
  aesGcmEncrypt : List Nat → List Nat → List Nat → List Nat
  aesGcmDecrypt : List Nat → List Nat → List Nat → Option (List Nat)
  exportJwk : List Nat → Json
  importJwk : Json → Option (List Nat)
  b64encode : List Nat → String
  b64decode : String → List Nat
  utf8encode : String → List Nat
  utf8decode : List Nat → String
  btoa : List Nat → String
  jsonStringify : Json → String
  jsonParse : String → Option Json

/-- The in-memory `EncryptionResult` of the source's type declarations:
`{ data: string; iv: string; salt?: string }` (base64 fields). -/
structure EncryptionResult where
  data : String
  iv : String
  salt : Option String
deriving DecidableEq

/-- The source's `DetailedEncryptionResult`:
`{ vault: string; exportedKeyString: string }`. -/
structure DetailedEncryptionResult where
  vault : String
  exportedKeyString : String
deriving DecidableEq

/-- `JSON.stringify` of an `EncryptionResult` object: the JS object
carries keys `data`, `iv` in insertion order, and `salt` if (and only
if) it was set — `JSON.stringify` omits `undefined` properties. -/
def encResultJson (r : EncryptionResult) : Json :=
  Json.obj ([("data", Json.str r.data), ("iv", Json.str r.iv)] ++
    (match r.salt with
     | some s => [("salt", Json.str s)]
     | none => []))

/-- `keyFromPassword` (src/dist/index.js lines 162-173): utf-8 encodes
the password, base64-decodes the salt, imports the password as a raw
PBKDF2 key, and derives 256-bit AES-GCM key material with 10000
iterations of PBKDF2/SHA-256; the derived key's `extractable` flag is
the `exportable` argument. -/
def keyFromPassword (P : CryptoProvider) (password : String) (salt : String)
    (exportable : Bool := false) : CryptoKey :=
  let passBuffer := P.utf8encode password
  let saltBuffer := P.b64decode salt
  { material := P.pbkdf2sha256 passBuffer saltBuffer 10000
    extractable := exportable }

/-- `encryptWithKey` (lines 52-67): JSON-stringifies the payload, utf-8
encodes it, draws a fresh 16-byte IV (the randomness is the explicit
`vector` argument here), AES-GCM encrypts, and base64-encodes ciphertext
and IV.  No `salt` field is set. -/
def encryptWithKey (P : CryptoProvider) (key : CryptoKey) (dataObj : Json)
    (vector : List Nat) : EncryptionResult :=
  let data := P.jsonStringify dataObj
  let dataBuffer := P.utf8encode data
  let buf := P.aesGcmEncrypt key.material vector dataBuffer
  { data := P.b64encode buf
    iv := P.b64encode vector
    salt := none }

/-- `encrypt` (lines 17-22): uses the supplied key, or derives a
non-exportable key from password and salt; encrypts with the key,
attaches the salt to the payload, and JSON-stringifies it.  The `salt`
argument defaults to `generateSalt()` at the call site; the randomness
consumed there is threaded in by the caller of the model. -/
def encrypt (P : CryptoProvider) (password : String) (dataObj : Json)
    (key : Option CryptoKey) (salt : String) (vector : List Nat) : String :=
  let cryptoKey := match key with
    | some k => k
    | none => keyFromPassword P password salt
  let payload := encryptWithKey P cryptoKey dataObj vector
  P.jsonStringify (encResultJson { payload with salt := some salt })

/-- `exportKey` (lines 149-152): `subtle.exportKey('jwk', key)`, then
`JSON.stringify`.  Per WebCrypto, `subtle.exportKey` throws an
InvalidAccessError when the key is not extractable. -/
def exportKey (P : CryptoProvider) (key : CryptoKey) : Except JsErr String :=
  if key.extractable then
    Except.ok (P.jsonStringify (P.exportJwk key.material))
  else
    Except.error JsErr.invalidAccessError

/-- `importKey` (lines 137-140): `JSON.parse` of the key string (a throw
is a SyntaxError), then `subtle.importKey('jwk', ..., 'AES-GCM', true,
['encrypt','decrypt'])` — the extractable argument is the literal
`true`; `subtle.importKey` rejects bad JWK data with a DataError. -/
def importKey (P : CryptoProvider) (keyString : String) : Except JsErr CryptoKey :=
  match P.jsonParse keyString with
  | none => Except.error JsErr.syntaxError
  | some jwk =>
    match P.importJwk jwk with
    | none => Except.error JsErr.dataError
    | some material => Except.ok { material := material, extractable := true }

/-- `encryptWithDetail` (lines 33-41): derives an exportable key from
password and salt, exports it, then calls `encrypt` with that key and
salt; returns the vault together with the exported key string. -/
def encryptWithDetail (P : CryptoProvider) (password : String) (dataObj : Json)
    (salt : String) (vector : List Nat) : Except JsErr DetailedEncryptionResult :=
  let key := keyFromPassword P password salt true
  match exportKey P key with
  | Except.error e => Except.error e
  | Except.ok exportedKeyString =>
    Except.ok { vault := encrypt P password dataObj (some key) salt vector
                exportedKeyString := exportedKeyString }

/-- `decryptWithKey` (lines 115-129): base64-decodes `payload.data` and
`payload.iv`, then inside a single try block AES-GCM decrypts, utf-8
decodes and JSON-parses; any throw inside the try — the GCM
authentication failure and equally a JSON parse failure — is caught and
replaced by `new Error('Incorrect password')`. -/
def decryptWithKey (P : CryptoProvider) (key : CryptoKey)
    (payload : EncryptionResult) : Except JsErr Json :=
  let encryptedData := P.b64decode payload.data
  let vector := P.b64decode payload.iv
  match P.aesGcmDecrypt key.material vector encryptedData with
  | none => Except.error JsErr.incorrectPassword
  | some result =>
    let decryptedStr := P.utf8decode result
    match P.jsonParse decryptedStr with
    | none => Except.error JsErr.incorrectPassword
    | some decryptedObj => Except.ok decryptedObj

/-- `decrypt` (lines 78-84): `JSON.parse` of the vault text (a throw is
a SyntaxError); destructuring `salt` from a `null` payload throws a
TypeError; with no key supplied, `keyFromPassword(password, salt)` is
called — when `salt` is `undefined`, `Buffer.from(undefined, 'base64')`
inside `keyFromPassword` throws a TypeError; finally `decryptWithKey`,
whose reads of `payload.data` / `payload.iv` via
`Buffer.from(_, 'base64')` likewise throw a TypeError when the field is
absent.  Non-string field values would be coerced by `Buffer.from`;
that corner is left `unmodelledDynamic` and no theorem rests on it. -/
def decrypt (P : CryptoProvider) (password : String) (text : String)
    (key : Option CryptoKey) : Except JsErr Json :=
  match P.jsonParse text with
  | none => Except.error JsErr.syntaxError
  | some Json.null => Except.error JsErr.typeError
  | some payload =>
    let saltField := payload.getField "salt"
    let keyStep : Except JsErr CryptoKey := match key with
      | some k => Except.ok k
      | none =>
        match saltField with
        | some (Json.str s) => Except.ok (keyFromPassword P password s)
        | none => Except.error JsErr.typeError
        | some _ => Except.error JsErr.unmodelledDynamic
    match keyStep with
    | Except.error e => Except.error e
    | Except.ok cryptoKey =>
      match payload.getField "data", payload.getField "iv" with
      | some (Json.str d), some (Json.str i) =>
        decryptWithKey P cryptoKey
          { data := d, iv := i
            salt := match saltField with
                    | some (Json.str s) => some s
                    | _ => none }
      | none, _ => Except.error JsErr.typeError
      | _, none => Except.error JsErr.typeError
      | _, _ => Except.error JsErr.unmodelledDynamic

/-- `generateSalt` (lines 225-235): draws `byteCount` random bytes (the
explicit `view` argument here) and base64-encodes them with `btoa`. -/
def generateSalt (P : CryptoProvider) (view : List Nat) : String :=
  P.btoa view

/-! ## Hex storage utilities (lines 181-218)

These are plain functions of strings and byte lists, with no platform
dependency except JS `parseInt` and `Uint8Array` semantics, which are
modelled concretely below. -/

/-- Hex digit characters, as accepted by JS `parseInt` with radix 16. -/
def isHexDigitChar (c : Char) : Bool :=
  ('0' ≤ c && c ≤ '9') || ('a' ≤ c && c ≤ 'f') || ('A' ≤ c && c ≤ 'F')

def hexVal (c : Char) : Nat :=
  if '0' ≤ c && c ≤ '9' then c.toNat - '0'.toNat
  else if 'a' ≤ c && c ≤ 'f' then c.toNat - 'a'.toNat + 10
  else c.toNat - 'A'.toNat + 10

/-- Whitespace skipped by JS `parseInt` (the ASCII part; the segments
fed to `parseInt` here are slices of the caller's string). -/
def jsWhitespace (c : Char) : Bool :=
  c = ' ' || c = '\t' || c = '\n' || c = '\r' || c = '\x0b' || c = '\x0c'

/-- JS `parseInt(s, 16)`: skip leading whitespace, read an optional
sign, strip an optional `0x`/`0X` prefix, then take the longest prefix
of hex digits; `NaN` (here `none`) if that prefix is empty. -/
def jsParseIntHex (cs : List Char) : Option Int :=
  let s1 := cs.dropWhile jsWhitespace
  let signAndRest : Int × List Char :=
    match s1 with
    | '-' :: rest => (-1, rest)
    | '+' :: rest => (1, rest)
    | _ => (1, s1)
  let s2 := match signAndRest.2 with
    | '0' :: 'x' :: rest => rest
    | '0' :: 'X' :: rest => rest
    | _ => signAndRest.2
  let digits := s2.takeWhile isHexDigitChar
  if digits.isEmpty then none
  else some (signAndRest.1 * (digits.foldl (fun acc c => acc * 16 + hexVal c) 0 : Nat))

/-- Storing a value into a `Uint8Array` slot applies JS `ToUint8`:
`NaN` becomes 0, other values are taken mod 2^8 (mathematical modulus,
always non-negative). -/
def jsToUint8 : Option Int → Nat
  | none => 0
  | some i => (i % 256).toNat

/-- The loop of `serializeBufferFromStorage` (lines 184-187): the
stripped string is cut into 2-character segments `substr(i, 2)`, each
parsed with `parseInt(seg, 16)` and stored at index `i / 2`.  A final
1-character segment of an odd-length string targets index `n / 2`,
which is out of bounds of the `Uint8Array` of length `⌊n / 2⌋`; the
write is silently discarded, so that segment contributes nothing. -/
def decodePairs : List Char → List Nat
  | c1 :: c2 :: rest => jsToUint8 (jsParseIntHex [c1, c2]) :: decodePairs rest
  | _ => []

/-- `str.slice(0, 2) === '0x' ? str.slice(2) : str` (line 182). -/
def strip0x : List Char → List Char
  | '0' :: 'x' :: rest => rest
  | s => s

/-- `serializeBufferFromStorage` (lines 181-189). -/
def serializeBufferFromStorage (str : String) : List Nat :=
  decodePairs (strip0x str.toList)

def hexDigitChar (n : Nat) : Char :=
  if n < 10 then Char.ofNat ('0'.toNat + n) else Char.ofNat ('a'.toNat + (n - 10))

/-- `num.toString(16)` for natural numbers: the lowercase base-16
digits, most significant first.  Fuel-structured so that it reduces in
the kernel; `n + 1` units of fuel always suffice. -/
def toHexCharsAux : Nat → Nat → List Char
  | 0, _ => []
  | fuel + 1, n => if n < 16 then [hexDigitChar n] else toHexCharsAux fuel (n / 16) ++ [hexDigitChar (n % 16)]

def toHexChars (n : Nat) : List Char :=
  toHexCharsAux (n + 1) n

/-- The `while (hex.length < 2)` padding loop (lines 214-216); two
iterations always reach length 2. -/
def padTwoAux : Nat → List Char → List Char
  | 0, hex => hex
  | fuel + 1, hex => if hex.length < 2 then padTwoAux fuel ('0' :: hex) else hex

/-- `unprefixedHex` (lines 212-218). -/
def unprefixedHex (num : Nat) : List Char :=
  padTwoAux 2 (toHexChars num)

/-- `serializeBufferForStorage` (lines 197-203): starts from `'0x'` and
appends `unprefixedHex(value)` for each byte in order. -/
def serializeBufferForStorage (buffer : List Nat) : String :=
  String.mk (buffer.foldl (fun result value => result ++ unprefixedHex value) ['0', 'x'])

/-! ## Lemmas about the hex storage utilities -/

/-- A lowercase hex digit, the alphabet of `unprefixedHex`. -/
def isLowerHexDigit (c : Char) : Bool :=
  ('0' ≤ c && c ≤ '9') || ('a' ≤ c && c ≤ 'f')

/-- The hex characters appended after the `0x` prefix by
`serializeBufferForStorage`: each byte's two digits, in order. -/
def hexBody : List Nat → List Char
  | [] => []
  | b :: rest => unprefixedHex b ++ hexBody rest

set_option maxRecDepth 8192 in
theorem hexPair_spec : ∀ b : Nat, b < 256 →
    (unprefixedHex b).length = 2 ∧
    jsToUint8 (jsParseIntHex (unprefixedHex b)) = b ∧
    (unprefixedHex b).all isLowerHexDigit = true := by
  decide

theorem forStorage_foldl (B : List Nat) :
    ∀ a : List Char,
      B.foldl (fun result value => result ++ unprefixedHex value) a = a ++ hexBody B := by
  induction B with
  | nil => intro a; simp [hexBody]
  | cons b rest ih =>
    intro a
    simp only [List.foldl_cons, hexBody, ih (a ++ unprefixedHex b), List.append_assoc]

theorem forStorage_toList (B : List Nat) :
    (serializeBufferForStorage B).toList = '0' :: 'x' :: hexBody B := by
  show (String.mk _).toList = _
  rw [String.toList]
  show (B.foldl (fun result value => result ++ unprefixedHex value) ['0', 'x']) = _
  rw [forStorage_foldl]
  rfl

theorem decodePairs_length : ∀ l : List Char, (decodePairs l).length = l.length / 2
  | [] => by simp [decodePairs]
  | [_] => by simp [decodePairs]
  | c1 :: c2 :: rest => by
    have ih := decodePairs_length rest
    simp only [decodePairs, List.length_cons, ih]
    omega

theorem decodePairs_hexBody : ∀ B : List Nat, (∀ b ∈ B, b < 256) →
    decodePairs (hexBody B) = B := by
  intro B
  induction B with
  | nil => intro _; rfl
  | cons b rest ih =>
    intro hB
    have hb : b < 256 := hB b (by simp)
    obtain ⟨hlen, hval, -⟩ := hexPair_spec b hb
    obtain ⟨c1, c2, hc⟩ := List.length_eq_two.mp hlen
    show decodePairs (unprefixedHex b ++ hexBody rest) = b :: rest
    rw [hc]
    show jsToUint8 (jsParseIntHex [c1, c2]) :: decodePairs (hexBody rest) = b :: rest
    rw [← hc, hval, ih (fun x hx => hB x (by simp [hx]))]

/-- C8: for every byte sequence B, `serializeBufferFromStorage`
inverts `serializeBufferForStorage`; the empty buffer serializes to
exactly `"0x"`; and serialization is the `0x` prefix followed by each
byte's two lowercase hex digits, in order. -/
theorem c8_hex_storage_roundtrip (B : List Nat) (hB : ∀ b ∈ B, b < 256) :
    serializeBufferFromStorage (serializeBufferForStorage B) = B
    ∧ serializeBufferForStorage [] = "0x"
    ∧ (serializeBufferForStorage B).toList = '0' :: 'x' :: hexBody B
    ∧ ∀ b ∈ B, (unprefixedHex b).length = 2 ∧ (unprefixedHex b).all isLowerHexDigit = true := by
  refine ⟨?_, rfl, forStorage_toList B, ?_⟩
  · show decodePairs (strip0x (serializeBufferForStorage B).toList) = B
    rw [forStorage_toList B]
    show decodePairs (hexBody B) = B
    exact decodePairs_hexBody B hB
  · intro b hb
    obtain ⟨h1, -, h3⟩ := hexPair_spec b (hB b hb)
    exact ⟨h1, h3⟩

theorem c8_hex_storage_roundtrip_witness :
    (∀ b ∈ [0, 171, 255], b < 256)
    ∧ (serializeBufferFromStorage (serializeBufferForStorage [0, 171, 255]) = [0, 171, 255]
       ∧ serializeBufferForStorage [] = "0x"
       ∧ (serializeBufferForStorage [0, 171, 255]).toList = '0' :: 'x' :: hexBody [0, 171, 255]
       ∧ ∀ b ∈ [0, 171, 255], (unprefixedHex b).length = 2
          ∧ (unprefixedHex b).all isLowerHexDigit = true) :=
  ⟨by decide, c8_hex_storage_roundtrip [0, 171, 255] (by decide)⟩

/-- C7 counterexample: `serializeBufferFromStorage` does not fail on
malformed hex.  On `"zz"` (non-hex characters) it returns `[0]`
(`parseInt` yields NaN, stored as 0), and on the odd-length `"abc"` it
returns `[171]` (the trailing character's out-of-bounds write is
dropped).  There is no `MalformedHex` failure anywhere in the code. -/
theorem c7_counterexample :
    serializeBufferFromStorage "zz" = [0] ∧ serializeBufferFromStorage "abc" = [171] := by
  decide

/-- C7 amended: `serializeBufferFromStorage` never fails; for every
input it totally returns ⌊n / 2⌋ bytes, n the length after stripping an
optional `0x` prefix — a 2-character segment that `parseInt` cannot
parse as hex becomes the byte 0, and the final character of an
odd-length input is discarded, as the concrete evaluations show. -/
theorem c7_amended_no_failure :
    (∀ s : String, (serializeBufferFromStorage s).length = (strip0x s.toList).length / 2)
    ∧ serializeBufferFromStorage "zz" = [0]
    ∧ serializeBufferFromStorage "0xabc" = [171] := by
  refine ⟨fun s => decodePairs_length (strip0x s.toList), by decide, by decide⟩

/-! ## Theorems about the vault codec -/

/-- C9: when a key is supplied to `encrypt`, the password has no
influence on the result — with identical randomness the vault strings
are identical, whatever the two passwords are.  In the source the
password is only consulted in the key-derivation branch, which a
supplied key short-circuits. -/
theorem c9_encrypt_supplied_key_ignores_password (P : CryptoProvider)
    (dataObj : Json) (k : CryptoKey) (salt : String) (vector : List Nat)
    (w1 w2 : String) :
    encrypt P w1 dataObj (some k) salt vector = encrypt P w2 dataObj (some k) salt vector :=
  rfl

/-- C10: every key reconstructed by `importKey` is extractable —
`importKey` passes the literal `true` as the extractable argument of
`subtle.importKey` — so `exportKey` on it succeeds and never raises the
non-extractable-key error. -/
theorem c10_imported_key_exportable (P : CryptoProvider) (s : String) (key : CryptoKey)
    (h : importKey P s = Except.ok key) :
    key.extractable = true
    ∧ exportKey P key = Except.ok (P.jsonStringify (P.exportJwk key.material)) := by
  unfold importKey at h
  split at h
  · exact absurd h (by simp)
  · split at h
    · exact absurd h (by simp)
    · injection h with h2
      subst h2
      exact ⟨rfl, by simp [exportKey]⟩

/-- C1: for every payload, password, salt and IV, decrypting an
encrypted vault with the same password recovers the payload, given that
the platform primitives are correct at the values used: the payload's
JSON text survives utf-8 and a stringify/parse round trip, AES-GCM
decryption with the same key and IV inverts encryption, base64 decoding
inverts encoding on ciphertext and IV, and the vault string parses back
to the vault object. -/
theorem c1_encrypt_decrypt_roundtrip (P : CryptoProvider) (password : String)
    (dataObj : Json) (salt : String) (vector : List Nat)
    (hutf8 : P.utf8decode (P.utf8encode (P.jsonStringify dataObj)) = P.jsonStringify dataObj)
    (hjson : P.jsonParse (P.jsonStringify dataObj) = some dataObj)
    (hgcm : P.aesGcmDecrypt (keyFromPassword P password salt).material vector
        (P.aesGcmEncrypt (keyFromPassword P password salt).material vector
          (P.utf8encode (P.jsonStringify dataObj))) =
      some (P.utf8encode (P.jsonStringify dataObj)))
    (hb64data : P.b64decode (P.b64encode (P.aesGcmEncrypt
        (keyFromPassword P password salt).material vector
        (P.utf8encode (P.jsonStringify dataObj)))) =
      P.aesGcmEncrypt (keyFromPassword P password salt).material vector
        (P.utf8encode (P.jsonStringify dataObj)))
    (hb64iv : P.b64decode (P.b64encode vector) = vector)
    (hvault : P.jsonParse (encrypt P password dataObj none salt vector) =
      some (encResultJson { encryptWithKey P (keyFromPassword P password salt) dataObj vector
        with salt := some salt })) :
    decrypt P password (encrypt P password dataObj none salt vector) none = Except.ok dataObj := by
  unfold decrypt
  rw [hvault]
  simp only [encResultJson, encryptWithKey, Json.getField, findField]
  simp only [String.reduceEq, reduceIte, if_true]
  simp only [decryptWithKey, hb64data, hb64iv, hgcm, hutf8, hjson]

/-- C2: whenever the AES-GCM decryption step fails (wrong key, corrupted
ciphertext or tampered IV), `decryptWithKey` fails with the one generic
`Incorrect password` error and returns no output; in particular,
decrypting a vault with a password different from the one used to
encrypt fails that way, assuming GCM authentication rejects the key
derived from the other password. -/
theorem c2_decrypt_failure_incorrect_password (P : CryptoProvider)
    (key : CryptoKey) (payload : EncryptionResult)
    (w1 w2 : String) (dataObj : Json) (salt : String) (vector : List Nat)
    (hfail : P.aesGcmDecrypt key.material (P.b64decode payload.iv)
        (P.b64decode payload.data) = none)
    (hne : w1 ≠ w2)
    (hvault : P.jsonParse (encrypt P w1 dataObj none salt vector) =
      some (encResultJson { encryptWithKey P (keyFromPassword P w1 salt) dataObj vector
        with salt := some salt }))
    (hb64data : P.b64decode (P.b64encode (P.aesGcmEncrypt
        (keyFromPassword P w1 salt).material vector
        (P.utf8encode (P.jsonStringify dataObj)))) =
      P.aesGcmEncrypt (keyFromPassword P w1 salt).material vector
        (P.utf8encode (P.jsonStringify dataObj)))
    (hb64iv : P.b64decode (P.b64encode vector) = vector)
    (hgcmfail : P.aesGcmDecrypt (keyFromPassword P w2 salt).material vector
        (P.aesGcmEncrypt (keyFromPassword P w1 salt).material vector
          (P.utf8encode (P.jsonStringify dataObj))) = none) :
    decryptWithKey P key payload = Except.error JsErr.incorrectPassword
    ∧ decrypt P w2 (encrypt P w1 dataObj none salt vector) none =
        Except.error JsErr.incorrectPassword := by
  constructor
  · simp only [decryptWithKey, hfail]
  · unfold decrypt
    rw [hvault]
    simp only [encResultJson, encryptWithKey, Json.getField, findField]
    simp only [String.reduceEq, reduceIte, if_true]
    simp only [decryptWithKey, hb64data, hb64iv, hgcmfail]

/-- C3: `encryptWithDetail` returns the vault produced by `encrypt` with
the derived exportable key together with that key exported; importing
the exported key string reconstructs the key (now extractable), the
vault parses back to the vault object, and `decryptWithKey` with the
reconstructed key on that parsed vault returns the payload.  Neither
`importKey` nor `decryptWithKey` takes the password as an argument, so
the password is not consulted anywhere in this decryption path. -/
theorem c3_encrypt_with_detail_key_reuse (P : CryptoProvider) (password : String)
    (dataObj : Json) (salt : String) (vector : List Nat)
    (hjwkparse : P.jsonParse (P.jsonStringify (P.exportJwk
        (keyFromPassword P password salt true).material)) =
      some (P.exportJwk (keyFromPassword P password salt true).material))
    (hjwkimport : P.importJwk (P.exportJwk (keyFromPassword P password salt true).material) =
      some (keyFromPassword P password salt true).material)
    (hvault : P.jsonParse (encrypt P password dataObj
        (some (keyFromPassword P password salt true)) salt vector) =
      some (encResultJson { encryptWithKey P (keyFromPassword P password salt true) dataObj vector
        with salt := some salt }))
    (hb64data : P.b64decode (P.b64encode (P.aesGcmEncrypt
        (keyFromPassword P password salt true).material vector
        (P.utf8encode (P.jsonStringify dataObj)))) =
      P.aesGcmEncrypt (keyFromPassword P password salt true).material vector
        (P.utf8encode (P.jsonStringify dataObj)))
    (hb64iv : P.b64decode (P.b64encode vector) = vector)
    (hgcm : P.aesGcmDecrypt (keyFromPassword P password salt true).material vector
        (P.aesGcmEncrypt (keyFromPassword P password salt true).material vector
          (P.utf8encode (P.jsonStringify dataObj))) =
      some (P.utf8encode (P.jsonStringify dataObj)))
    (hutf8 : P.utf8decode (P.utf8encode (P.jsonStringify dataObj)) = P.jsonStringify dataObj)
    (hjson : P.jsonParse (P.jsonStringify dataObj) = some dataObj) :
    encryptWithDetail P password dataObj salt vector =
      Except.ok { vault := encrypt P password dataObj
                    (some (keyFromPassword P password salt true)) salt vector
                  exportedKeyString := P.jsonStringify (P.exportJwk
                    (keyFromPassword P password salt true).material) }
    ∧ importKey P (P.jsonStringify (P.exportJwk (keyFromPassword P password salt true).material)) =
        Except.ok { material := (keyFromPassword P password salt true).material
                    extractable := true }
    ∧ P.jsonParse (encrypt P password dataObj
          (some (keyFromPassword P password salt true)) salt vector) =
        some (encResultJson { encryptWithKey P (keyFromPassword P password salt true) dataObj vector
          with salt := some salt })
    ∧ decryptWithKey P { material := (keyFromPassword P password salt true).material
                         extractable := true }
        { encryptWithKey P (keyFromPassword P password salt true) dataObj vector
          with salt := some salt } =
        Except.ok dataObj := by
  refine ⟨?_, ?_, hvault, ?_⟩
  · simp [encryptWithDetail, exportKey, keyFromPassword]
  · simp only [importKey, hjwkparse, hjwkimport]
  · simp only [decryptWithKey, encryptWithKey, hb64data, hb64iv, hgcm, hutf8, hjson]

/-- C4: a vault produced by `encrypt` with a password and no supplied
key parses to a JSON object whose `salt` field equals the salt argument
(`encrypt` attaches the salt unconditionally; when the argument is
omitted the JS default supplies a fresh `generateSalt()` value, which is
just an instance of the quantified `salt` here); an `EncryptionResult`
from `encryptWithKey` alone carries only `data` and `iv`, with no salt. -/
theorem c4_salt_field_presence (P : CryptoProvider) (password : String)
    (dataObj : Json) (key : CryptoKey) (salt : String) (vector : List Nat)
    (hvault : P.jsonParse (encrypt P password dataObj none salt vector) =
      some (encResultJson { encryptWithKey P (keyFromPassword P password salt) dataObj vector
        with salt := some salt })) :
    (∃ payload, P.jsonParse (encrypt P password dataObj none salt vector) = some payload
      ∧ payload.getField "salt" = some (Json.str salt))
    ∧ (encryptWithKey P key dataObj vector).salt = none
    ∧ encryptWithKey P key dataObj vector =
        { data := P.b64encode (P.aesGcmEncrypt key.material vector
            (P.utf8encode (P.jsonStringify dataObj)))
          iv := P.b64encode vector
          salt := none } := by
  refine ⟨⟨_, hvault, ?_⟩, rfl, rfl⟩
  simp [encResultJson, encryptWithKey, Json.getField, findField]

/-- C5 amended: when the parsed vault has no `salt` field and no key is
supplied, `decrypt` fails — but not with a dedicated invalid-vault
error: the code has none, and key derivation is entered, where
`Buffer.from(undefined, 'base64')` throws a TypeError (a `null` payload
already throws a TypeError at the destructuring). -/
theorem c5_amended_missing_salt_type_error (P : CryptoProvider)
    (password text : String) (payload : Json)
    (hparse : P.jsonParse text = some payload)
    (hnosalt : payload.getField "salt" = none) :
    decrypt P password text none = Except.error JsErr.typeError := by
  unfold decrypt
  rw [hparse]
  cases payload with
  | obj fields =>
    simp only [Json.getField] at hnosalt
    simp [Json.getField, hnosalt]
  | null => rfl
  | bool b => rfl
  | num n => rfl
  | str s => rfl
  | arr elems => rfl

/-- C6 amended: a JSON parse failure after a successful AES-GCM
decryption is caught by the same try/catch and surfaced as the same
generic `Incorrect password` error — it is not distinguished from an
authentication failure. -/
theorem c6_amended_parse_failure_incorrect_password (P : CryptoProvider)
    (key : CryptoKey) (payload : EncryptionResult) (result : List Nat)
    (hdec : P.aesGcmDecrypt key.material (P.b64decode payload.iv)
        (P.b64decode payload.data) = some result)
    (hparse : P.jsonParse (P.utf8decode result) = none) :
    decryptWithKey P key payload = Except.error JsErr.incorrectPassword := by
  simp only [decryptWithKey, hdec, hparse]

/-! ## A concrete provider

Witnesses instantiate the provider hypotheses with a small concrete
provider whose primitives satisfy the pointwise round-trip and
authentication facts at the inputs used: base64 and utf-8 are modelled
by injective character-code maps, PBKDF2 by concatenating password and
salt bytes, AES-GCM by prefixing the message with key and IV (so that
decryption under any other key-IV prefix fails), and JSON by an
injective printer paired with a finite-table parser. -/

def toyB64e (l : List Nat) : String := String.mk (l.map fun b => Char.ofNat (b + 65))

def toyB64d (s : String) : List Nat := s.toList.map fun c => c.toNat - 65

def toyUtf8e (s : String) : List Nat := s.toList.map Char.toNat

def toyUtf8d (l : List Nat) : String := String.mk (l.map Char.ofNat)

def toyFields : List (String × Json) → Option String
  | [] => some ""
  | (k, Json.str v) :: rest =>
    (toyFields rest).map (fun r => "<" ++ k ++ ":" ++ v ++ ">" ++ r)
  | _ => none

def toyStr : Json → String
  | .null => "null"
  | .bool b => cond b "true" "false"
  | .num n => "#" ++ toString n
  | .str s => "$" ++ s
  | .arr _ => "?"
  | .obj fields =>
    match toyFields fields with
    | some r => "O" ++ r
    | none => "?"

def toyKm1 : List Nat := toyUtf8e "pw" ++ toyB64d "AB"

def toyPt : List Nat := toyUtf8e (toyStr (Json.num 7))

def toyCt1 : List Nat := toyKm1 ++ [1, 2] ++ toyPt

def toyVault1 : Json :=
  encResultJson { data := toyB64e toyCt1, iv := toyB64e [1, 2], salt := some "AB" }

def toyKmA : List Nat := toyUtf8e "a" ++ toyB64d "AB"

def toyCt2 : List Nat := toyKmA ++ [3, 4] ++ toyPt

def toyVault2 : Json :=
  encResultJson { data := toyB64e toyCt2, iv := toyB64e [3, 4], salt := some "AB" }

def toyJwk1 : Json := Json.str (toyB64e toyKm1)

def toyNoSaltVault : Json := Json.obj [("data", Json.str "QQ"), ("iv", Json.str "Qg")]

def toyVals : List Json := [Json.num 7, toyVault1, toyVault2, toyJwk1, toyNoSaltVault]

def toyParse (s : String) : Option Json := toyVals.find? (fun j => toyStr j == s)

def toy : CryptoProvider :=
  { pbkdf2sha256 := fun pass salt _iters => pass ++ salt
    aesGcmEncrypt := fun km iv pt => km ++ iv ++ pt
    aesGcmDecrypt := fun km iv ct =>
      if ct.take (km.length + iv.length) = km ++ iv then
        some (ct.drop (km.length + iv.length))
      else none
    exportJwk := fun m => Json.str (toyB64e m)
    importJwk := fun j =>
      match j with
      | Json.str s => some (toyB64d s)
      | _ => none
    b64encode := toyB64e
    b64decode := toyB64d
    utf8encode := toyUtf8e
    utf8decode := toyUtf8d
    btoa := toyB64e
    jsonStringify := toyStr
    jsonParse := toyParse }

theorem c1_encrypt_decrypt_roundtrip_witness :
    (toy.utf8decode (toy.utf8encode (toy.jsonStringify (Json.num 7))) =
      toy.jsonStringify (Json.num 7))
    ∧ (toy.jsonParse (toy.jsonStringify (Json.num 7)) = some (Json.num 7))
    ∧ (toy.aesGcmDecrypt (keyFromPassword toy "pw" "AB").material [1, 2]
        (toy.aesGcmEncrypt (keyFromPassword toy "pw" "AB").material [1, 2]
          (toy.utf8encode (toy.jsonStringify (Json.num 7)))) =
        some (toy.utf8encode (toy.jsonStringify (Json.num 7))))
    ∧ (toy.b64decode (toy.b64encode (toy.aesGcmEncrypt
        (keyFromPassword toy "pw" "AB").material [1, 2]
        (toy.utf8encode (toy.jsonStringify (Json.num 7))))) =
      toy.aesGcmEncrypt (keyFromPassword toy "pw" "AB").material [1, 2]
        (toy.utf8encode (toy.jsonStringify (Json.num 7))))
    ∧ (toy.b64decode (toy.b64encode [1, 2]) = [1, 2])
    ∧ (toy.jsonParse (encrypt toy "pw" (Json.num 7) none "AB" [1, 2]) =
      some (encResultJson { encryptWithKey toy (keyFromPassword toy "pw" "AB") (Json.num 7) [1, 2]
        with salt := some "AB" }))
    ∧ decrypt toy "pw" (encrypt toy "pw" (Json.num 7) none "AB" [1, 2]) none =
        Except.ok (Json.num 7) :=
  ⟨rfl, rfl, rfl, rfl, rfl, rfl,
    c1_encrypt_decrypt_roundtrip toy "pw" (Json.num 7) "AB" [1, 2] rfl rfl rfl rfl rfl rfl⟩

theorem c2_decrypt_failure_incorrect_password_witness :
    (toy.aesGcmDecrypt ([1] : List Nat) (toy.b64decode (toyB64e [8])) (toy.b64decode (toyB64e [9])) = none)
    ∧ ("a" ≠ "b")
    ∧ (toy.jsonParse (encrypt toy "a" (Json.num 7) none "AB" [3, 4]) =
      some (encResultJson { encryptWithKey toy (keyFromPassword toy "a" "AB") (Json.num 7) [3, 4]
        with salt := some "AB" }))
    ∧ (toy.b64decode (toy.b64encode (toy.aesGcmEncrypt
        (keyFromPassword toy "a" "AB").material [3, 4]
        (toy.utf8encode (toy.jsonStringify (Json.num 7))))) =
      toy.aesGcmEncrypt (keyFromPassword toy "a" "AB").material [3, 4]
        (toy.utf8encode (toy.jsonStringify (Json.num 7))))
    ∧ (toy.b64decode (toy.b64encode [3, 4]) = [3, 4])
    ∧ (toy.aesGcmDecrypt (keyFromPassword toy "b" "AB").material [3, 4]
        (toy.aesGcmEncrypt (keyFromPassword toy "a" "AB").material [3, 4]
          (toy.utf8encode (toy.jsonStringify (Json.num 7)))) = none)
    ∧ (decryptWithKey toy { material := [1], extractable := false }
        { data := toyB64e [9], iv := toyB64e [8], salt := none } =
          Except.error JsErr.incorrectPassword
      ∧ decrypt toy "b" (encrypt toy "a" (Json.num 7) none "AB" [3, 4]) none =
          Except.error JsErr.incorrectPassword) :=
  ⟨rfl, by decide, rfl, rfl, rfl, rfl,
    c2_decrypt_failure_incorrect_password toy
      { material := [1], extractable := false }
      { data := toyB64e [9], iv := toyB64e [8], salt := none }
      "a" "b" (Json.num 7) "AB" [3, 4] rfl (by decide) rfl rfl rfl rfl⟩

theorem c3_encrypt_with_detail_key_reuse_witness :
    (toy.jsonParse (toy.jsonStringify (toy.exportJwk
        (keyFromPassword toy "pw" "AB" true).material)) =
      some (toy.exportJwk (keyFromPassword toy "pw" "AB" true).material))
    ∧ (toy.importJwk (toy.exportJwk (keyFromPassword toy "pw" "AB" true).material) =
      some (keyFromPassword toy "pw" "AB" true).material)
    ∧ (toy.jsonParse (encrypt toy "pw" (Json.num 7)
        (some (keyFromPassword toy "pw" "AB" true)) "AB" [1, 2]) =
      some (encResultJson { encryptWithKey toy (keyFromPassword toy "pw" "AB" true) (Json.num 7) [1, 2]
        with salt := some "AB" }))
    ∧ (encryptWithDetail toy "pw" (Json.num 7) "AB" [1, 2] =
        Except.ok { vault := encrypt toy "pw" (Json.num 7)
                      (some (keyFromPassword toy "pw" "AB" true)) "AB" [1, 2]
                    exportedKeyString := toy.jsonStringify (toy.exportJwk
                      (keyFromPassword toy "pw" "AB" true).material) }
      ∧ importKey toy (toy.jsonStringify (toy.exportJwk
          (keyFromPassword toy "pw" "AB" true).material)) =
          Except.ok { material := (keyFromPassword toy "pw" "AB" true).material
                      extractable := true }
      ∧ toy.jsonParse (encrypt toy "pw" (Json.num 7)
            (some (keyFromPassword toy "pw" "AB" true)) "AB" [1, 2]) =
          some (encResultJson { encryptWithKey toy (keyFromPassword toy "pw" "AB" true)
            (Json.num 7) [1, 2] with salt := some "AB" })
      ∧ decryptWithKey toy { material := (keyFromPassword toy "pw" "AB" true).material
                             extractable := true }
          { encryptWithKey toy (keyFromPassword toy "pw" "AB" true) (Json.num 7) [1, 2]
            with salt := some "AB" } =
          Except.ok (Json.num 7)) :=
  ⟨rfl, rfl, rfl,
    c3_encrypt_with_detail_key_reuse toy "pw" (Json.num 7) "AB" [1, 2]
      rfl rfl rfl rfl rfl rfl rfl rfl⟩

theorem c4_salt_field_presence_witness :
    (toy.jsonParse (encrypt toy "pw" (Json.num 7) none "AB" [1, 2]) =
      some (encResultJson { encryptWithKey toy (keyFromPassword toy "pw" "AB") (Json.num 7) [1, 2]
        with salt := some "AB" }))
    ∧ ((∃ payload, toy.jsonParse (encrypt toy "pw" (Json.num 7) none "AB" [1, 2]) = some payload
        ∧ payload.getField "salt" = some (Json.str "AB"))
      ∧ (encryptWithKey toy { material := [5], extractable := false } (Json.num 7) [1, 2]).salt = none
      ∧ encryptWithKey toy { material := [5], extractable := false } (Json.num 7) [1, 2] =
          { data := toy.b64encode (toy.aesGcmEncrypt [5] [1, 2]
              (toy.utf8encode (toy.jsonStringify (Json.num 7))))
            iv := toy.b64encode [1, 2]
            salt := none }) :=
  ⟨rfl, c4_salt_field_presence toy "pw" (Json.num 7)
    { material := [5], extractable := false } "AB" [1, 2] rfl⟩

/-- C5 counterexample: a concrete vault without a `salt` field.
`decrypt` without a key does not fail with a dedicated invalid-vault
error — no such error exists in the code; instead `keyFromPassword` is
invoked with the `undefined` salt and `Buffer.from(undefined, 'base64')`
throws a TypeError. -/
theorem c5_counterexample :
    toy.jsonParse (toyStr toyNoSaltVault) = some toyNoSaltVault
    ∧ toyNoSaltVault.getField "salt" = none
    ∧ decrypt toy "pw" (toyStr toyNoSaltVault) none = Except.error JsErr.typeError
    ∧ JsErr.typeError ≠ JsErr.incorrectPassword :=
  ⟨rfl, rfl, rfl, by decide⟩

theorem c5_amended_missing_salt_type_error_witness :
    (toy.jsonParse (toyStr toyNoSaltVault) = some toyNoSaltVault)
    ∧ (toyNoSaltVault.getField "salt" = none)
    ∧ decrypt toy "pw" (toyStr toyNoSaltVault) none = Except.error JsErr.typeError :=
  ⟨rfl, rfl,
    c5_amended_missing_salt_type_error toy "pw" (toyStr toyNoSaltVault) toyNoSaltVault rfl rfl⟩

/-- C6 counterexample: a concrete key and payload on which the AES-GCM
step succeeds but the decrypted plaintext is not valid JSON; the
`JSON.parse` failure is caught by the same catch block, so
`decryptWithKey` fails with `Incorrect password`, not with a distinct
codec error. -/
theorem c6_counterexample :
    toy.aesGcmDecrypt ([5] : List Nat) (toy.b64decode (toyB64e [9]))
        (toy.b64decode (toyB64e [5, 9, 63])) = some [63]
    ∧ toy.jsonParse (toy.utf8decode [63]) = none
    ∧ decryptWithKey toy { material := [5], extractable := false }
        { data := toyB64e [5, 9, 63], iv := toyB64e [9], salt := none } =
        Except.error JsErr.incorrectPassword :=
  ⟨rfl, rfl, rfl⟩

theorem c6_amended_parse_failure_incorrect_password_witness :
    (toy.aesGcmDecrypt ([5] : List Nat) (toy.b64decode (toyB64e [9]))
        (toy.b64decode (toyB64e [5, 9, 63])) = some [63])
    ∧ (toy.jsonParse (toy.utf8decode [63]) = none)
    ∧ decryptWithKey toy { material := [5], extractable := false }
        { data := toyB64e [5, 9, 63], iv := toyB64e [9], salt := none } =
        Except.error JsErr.incorrectPassword :=
  ⟨rfl, rfl,
    c6_amended_parse_failure_incorrect_password toy
      { material := [5], extractable := false }
      { data := toyB64e [5, 9, 63], iv := toyB64e [9], salt := none } [63] rfl rfl⟩

theorem c10_imported_key_exportable_witness :
    (importKey toy (toyStr toyJwk1) = Except.ok { material := toyKm1, extractable := true })
    ∧ (({ material := toyKm1, extractable := true } : CryptoKey).extractable = true
      ∧ exportKey toy { material := toyKm1, extractable := true } =
          Except.ok (toy.jsonStringify (toy.exportJwk
            ({ material := toyKm1, extractable := true } : CryptoKey).material))) :=
  ⟨rfl, c10_imported_key_exportable toy (toyStr toyJwk1)
    { material := toyKm1, extractable := true } rfl⟩
